import Mathlib

/-! Verification development for the wasm host adapter in src/src/wasm_vm.rs.

The file shallowly embeds the adapter layer of the repository: value
marshalling between the engine value type and host (JS) values, the
native-function bridge, the compilation entry point with its take-once
CompileResult, and the run/step execution adapter.  The external
bytecode_vm engine is out of the repository; it is modelled
parametrically: its interpreter state is an arbitrary type and its
entry points (Interpreter::new, run, step) are parameters with the
result types the adapter code matches on.  Rust panics and
wasm_bindgen expect faults are modelled as the none case of Option
results; mutation of &mut self receivers is modelled by explicit state
passing (each method returns its result paired with the updated
state); the wall clock read Date.now() is modelled as an explicit
parameter. -/

/-- RuntimeError of the engine (bytecode_vm::interpreter::RuntimeError): a message. -/
structure RuntimeError where
  message : String
deriving DecidableEq

/-- CompilerError of the engine (bytecode_vm::interpreter::CompilerError). -/
structure CompilerError where
  line : Nat
  start : Nat
  len : Nat
  message : String
deriving DecidableEq

/-- CompilerErr, the wasm-side diagnostic record built by CompileResult::new_failure. -/
structure CompilerErr where
  line : Nat
  start : Nat
  len : Nat
  message : String
deriving DecidableEq

/-- Engine value (bytecode_vm::Value) restricted to the variants the adapter
marshals, plus one constructor `other` standing for every remaining engine
variant (the wildcard arm of Value::to_js). -/
inductive Value where
  | Number (n : Float)
  | Bool (b : Bool)
  | String (s : String)
  | Null
  | other

/-- Host (JS) value as seen through the wasm_bindgen accessors that
Value::from_js consults.  Each field records the answer the corresponding
accessor would give; keeping the fields independent lets the precedence of
the from_js chain be stated even for ambiguous host representations. -/
structure JsValue where
  is_null : Bool
  is_undefined : Bool
  as_f64 : Option Float
  as_bool : Option Bool
  as_string : Option String

/-- JsValue::from_f64: a JS number answers only the as_f64 accessor. -/
def JsValue.from_f64 (n : Float) : JsValue :=
  ⟨false, false, some n, none, none⟩

/-- JsValue::from_bool: a JS boolean answers only the as_bool accessor. -/
def JsValue.from_bool (b : Bool) : JsValue :=
  ⟨false, false, none, some b, none⟩

/-- JsValue::from_str: a JS string answers only the as_string accessor. -/
def JsValue.from_str (s : String) : JsValue :=
  ⟨false, false, none, none, some s⟩

/-- JsValue::NULL: the JS null value. -/
def JsValue.NULL : JsValue :=
  ⟨true, false, none, none, none⟩

/-- Value::to_js from the JsConvert impl.  The wildcard arm panics
("Unsupported value."); the panic is modelled as none. -/
def Value.to_js : Value → Option JsValue
  | .Number n => some (JsValue.from_f64 n)
  | .Bool b => some (JsValue.from_bool b)
  | .String s => some (JsValue.from_str s)
  | .Null => some JsValue.NULL
  | .other => none

/-- Value::from_js from the JsConvert impl: the if/else-if chain over the
wasm_bindgen accessors, in source order.  The final arm panics
("Unsupported JS value"); the panic is modelled as none. -/
def Value.from_js (js : JsValue) : Option Value :=
  if js.is_null || js.is_undefined then
    some Value.Null
  else
    match js.as_f64 with
    | some n => some (Value.Number n)
    | none =>
      match js.as_bool with
      | some b => some (Value.Bool b)
      | none =>
        match js.as_string with
        | some s => some (Value.String s)
        | none => none

/-- NativeFunction of the engine: name, arity and the engine-callable
function.  The function returns Option Value: none models the bridge
panicking (a fatal fault) instead of handing the engine a Value. -/
structure NativeFunction where
  name : String
  arity : Nat
  function : List Value → Option Value

/-- JsNativeFn: a host-registered native function spec.  The host callable
takes the marshalled argument array and either returns a JS value or throws
one (the Except error case models a JS exception). -/
structure JsNativeFn where
  name : String
  arity : Nat
  function : List JsValue → Except JsValue JsValue

/-- JsNativeFn::into_native: wraps the host callable as an engine
NativeFunction.  Arguments are marshalled with Value::to_js (a panic there
is none), the host callable is applied (.expect on a throw panics: none),
and the result is marshalled back with Value::from_js (none when the host
return value is unmarshallable). -/
def JsNativeFn.into_native (f : JsNativeFn) : NativeFunction :=
  { name := f.name
    arity := f.arity
    function := fun vals =>
      match vals.mapM Value.to_js with
      | none => none
      | some js_args =>
        match f.function js_args with
        | .error _ => none
        | .ok result => Value.from_js result }

/-- Output as returned by interpret and step. -/
structure Output where
  finished : Bool
  runtime_error : Option String
deriving DecidableEq

/-- Output::successful. -/
def Output.successful : Output :=
  { finished := true, runtime_error := none }

/-- Output::runtime_err. -/
def Output.runtime_err (err : RuntimeError) : Output :=
  { finished := true, runtime_error := some err.message }

/-- Output::unfinished. -/
def Output.unfinished : Output :=
  { finished := false, runtime_error := none }

/-- The external engine, modelled parametrically over its interpreter state
σ.  run and step are the two &mut self entry points the adapter calls; each
returns its Result paired with the updated interpreter state.  In the step
result, ok true means more instructions remain. -/
structure Engine (σ : Type) where
  run : σ → Except RuntimeError Unit × σ
  step : σ → Except RuntimeError Bool × σ

/-- WasmVm: owns the engine interpreter state. -/
structure WasmVm (σ : Type) where
  interpreter : σ

variable {σ : Type}

/-- WasmVm::interpret: forwards to the engine run and translates its Result
into an Output. -/
def WasmVm.interpret (E : Engine σ) (vm : WasmVm σ) : Output × WasmVm σ :=
  match E.run vm.interpreter with
  | (.ok _, s) => (Output.successful, ⟨s⟩)
  | (.error runtime_error, s) => (Output.runtime_err runtime_error, ⟨s⟩)

/-- WasmVm::step: forwards to the engine step; ok true (more instructions
remain) becomes unfinished, ok false becomes successful, an error becomes
runtime_err. -/
def WasmVm.step (E : Engine σ) (vm : WasmVm σ) : Output × WasmVm σ :=
  match E.step vm.interpreter with
  | (.ok not_finished, s) =>
    if not_finished then (Output.unfinished, ⟨s⟩) else (Output.successful, ⟨s⟩)
  | (.error runtime_error, s) => (Output.runtime_err runtime_error, ⟨s⟩)

/-- CompileResult: success flag plus the two take-once slots. -/
structure CompileResult (σ : Type) where
  success : Bool
  vm : Option (WasmVm σ)
  compile_errors : Option (List CompilerErr)

/-- The success getter (pub fn success(&self) -> bool): takes &self, so it
returns the flag together with the unchanged result. -/
def CompileResult.success_getter (r : CompileResult σ) : Bool × CompileResult σ :=
  (r.success, r)

/-- CompileResult::take_interpreter: Option::take on the vm slot. -/
def CompileResult.take_interpreter (r : CompileResult σ) :
    Option (WasmVm σ) × CompileResult σ :=
  (r.vm, { r with vm := none })

/-- CompileResult::take_compile_errors: Option::take on the diagnostics slot. -/
def CompileResult.take_compile_errors (r : CompileResult σ) :
    Option (List CompilerErr) × CompileResult σ :=
  (r.compile_errors, { r with compile_errors := none })

/-- CompileResult::new_success. -/
def CompileResult.new_success (interpreter : σ) : CompileResult σ :=
  { success := true, vm := some ⟨interpreter⟩, compile_errors := none }

/-- CompileResult::new_failure: maps each engine CompilerError to a wasm
CompilerErr field-for-field. -/
def CompileResult.new_failure (errors : List CompilerError) : CompileResult σ :=
  { success := false
    vm := none
    compile_errors := some (errors.map fun i =>
      { line := i.line, start := i.start, len := i.len, message := i.message }) }

/-- The implicit time native appended by compile.  Date.now() (milliseconds)
is modelled by the parameter now; the function ignores its arguments and
returns Number (now / 1000.0), seconds as a float. -/
def timeNative (now : Float) : NativeFunction :=
  { name := "time"
    arity := 0
    function := fun _ => some (Value.Number (now / 1000.0)) }

/-- The native table compile builds before calling the engine: each
host-registered JsNativeFn converted with into_native in registration order
(the for loop pushing into rust_natives), then the time native pushed last. -/
def buildNativeTable (natives : List JsNativeFn) (now : Float) : List NativeFunction :=
  natives.map JsNativeFn.into_native ++ [timeNative now]

/-- compile: builds the native table, calls the engine constructor
(Interpreter::new, modelled by the parameter engineNew), and wraps the
Result as a CompileResult. -/
def compile (engineNew : String → List NativeFunction → Except (List CompilerError) σ)
    (source : String) (natives : List JsNativeFn) (now : Float) : CompileResult σ :=
  match engineNew source (buildNativeTable natives now) with
  | .ok interpreter => CompileResult.new_success interpreter
  | .error compiler_errors => CompileResult.new_failure compiler_errors

/-- Translation of an engine run Result into the Output interpret builds
from it (the match arms of WasmVm::interpret). -/
def runOutput : Except RuntimeError Unit → Output
  | .ok _ => Output.successful
  | .error e => Output.runtime_err e

/-- Translation of an engine step Result into the Output step builds from
it (the match arms of WasmVm::step). -/
def stepOutput : Except RuntimeError Bool → Output
  | .ok true => Output.unfinished
  | .ok false => Output.successful
  | .error e => Output.runtime_err e

/-- The runtime_error field interpret derives from an engine run Result. -/
def runtimeErrorOf : Except RuntimeError Unit → Option String
  | .ok _ => none
  | .error e => some e.message

/-- The runtime_error field step derives from an engine step Result. -/
def stepErrorOf : Except RuntimeError Bool → Option String
  | .ok _ => none
  | .error e => some e.message

/-- Driving a program by calling step repeatedly until the returned Output
has finished = true, with fuel n; none when the fuel runs out first. -/
def stepDrive (E : Engine σ) : Nat → WasmVm σ → Option Output
  | 0, _ => none
  | n + 1, vm =>
    let p := WasmVm.step E vm
    if p.fst.finished then some p.fst else stepDrive E n p.snd

/-- The engine-level result of stepping the interpreter repeatedly: after
skipping at most n ok-true answers, the terminal step Result (ok false
becomes ok, an error stays an error), or none when no terminal answer
appears within n steps. -/
def stepsToTermination (E : Engine σ) : Nat → σ → Option (Except RuntimeError Unit)
  | 0, _ => none
  | n + 1, s =>
    match E.step s with
    | (.ok true, s2) => stepsToTermination E n s2
    | (.ok false, _) => some (.ok ())
    | (.error e, _) => some (.error e)

/-- State after a take_interpreter call (used to iterate takes). -/
def takeVmState (r : CompileResult σ) : CompileResult σ :=
  (CompileResult.take_interpreter r).snd

/-- State after a take_compile_errors call (used to iterate takes). -/
def takeErrsState (r : CompileResult σ) : CompileResult σ :=
  (CompileResult.take_compile_errors r).snd

/-- Concrete engine over Unit whose run succeeds and whose step reports that
no instructions remain; stands for an engine holding a completed program. -/
def haltedEngine : Engine Unit :=
  { run := fun s => (.ok (), s)
    step := fun s => (.ok false, s) }

/-- Concrete engine over Nat counting remaining instructions: step reports
more instructions remain while the counter is positive, and run jumps to the
completed state; its run and repeated step agree on the final result. -/
def countdownEngine : Engine Nat :=
  { run := fun _ => (.ok (), 0)
    step := fun s => if s = 0 then (.ok false, 0) else (.ok true, s - 1) }

/-- Concrete engine constructor that always accepts the source. -/
def engineOkUnit : String → List NativeFunction → Except (List CompilerError) Unit :=
  fun _ _ => .ok ()

/-- Concrete engine constructor that always rejects the source with one
diagnostic. -/
def engineFailUnit : String → List NativeFunction → Except (List CompilerError) Unit :=
  fun _ _ => .error [⟨1, 0, 1, "bad input"⟩]

/-- Concrete host native whose implementation always throws. -/
def throwingFn : JsNativeFn :=
  { name := "boom", arity := 0, function := fun _ => .error JsValue.NULL }

/-- Concrete host native returning a JS value no accessor recognises (an
object, say), hence unmarshallable by Value::from_js. -/
def badReturnFn : JsNativeFn :=
  { name := "bad", arity := 0, function := fun _ => .ok ⟨false, false, none, none, none⟩ }

/-- Unfolding of WasmVm::step: the Output is the stepOutput translation of
the engine step Result and the new state is the engine's updated state. -/
theorem wasm_step_eq (E : Engine σ) (w : WasmVm σ) :
    WasmVm.step E w = (stepOutput (E.step w.interpreter).fst, ⟨(E.step w.interpreter).snd⟩) := by
  rcases hs : E.step w.interpreter with ⟨q, t⟩
  rcases q with e | b
  · simp [WasmVm.step, hs, stepOutput]
  · cases b <;> simp [WasmVm.step, hs, stepOutput]

/-- Unfolding of WasmVm::interpret: the Output is the runOutput translation
of the engine run Result and the new state is the engine's updated state. -/
theorem wasm_interpret_eq (E : Engine σ) (w : WasmVm σ) :
    WasmVm.interpret E w = (runOutput (E.run w.interpreter).fst, ⟨(E.run w.interpreter).snd⟩) := by
  rcases hr : E.run w.interpreter with ⟨r, s⟩
  rcases r with u | e
  · simp [WasmVm.interpret, hr, runOutput]
  · simp [WasmVm.interpret, hr, runOutput]

/-- Claim C6: marshalling each of Number 0, Number (-3.5), Bool true,
Bool false, String "", String "x" and Null to the host representation and
back (from_js after to_js) reconstructs the original Value. -/
theorem value_roundtrip :
    ((Value.Number 0).to_js.bind Value.from_js = some (Value.Number 0))
    ∧ ((Value.Number (-3.5)).to_js.bind Value.from_js = some (Value.Number (-3.5)))
    ∧ ((Value.Bool true).to_js.bind Value.from_js = some (Value.Bool true))
    ∧ ((Value.Bool false).to_js.bind Value.from_js = some (Value.Bool false))
    ∧ ((Value.String "").to_js.bind Value.from_js = some (Value.String ""))
    ∧ ((Value.String "x").to_js.bind Value.from_js = some (Value.String "x"))
    ∧ (Value.Null.to_js.bind Value.from_js = some Value.Null) :=
  ⟨rfl, rfl, rfl, rfl, rfl, rfl, rfl⟩

/-- Claim C5: Value::from_js tests the accessors in the fixed order
null/undefined, then numeric, then boolean, then string, then the
unsupported-value fault, the first match winning; in particular a host value
answering both the numeric and the boolean accessor marshals to Number. -/
theorem from_js_precedence (js : JsValue) :
    ((js.is_null = true ∨ js.is_undefined = true) → Value.from_js js = some Value.Null)
    ∧ (js.is_null = false → js.is_undefined = false →
        ∀ n, js.as_f64 = some n → Value.from_js js = some (Value.Number n))
    ∧ (js.is_null = false → js.is_undefined = false → js.as_f64 = none →
        ∀ b, js.as_bool = some b → Value.from_js js = some (Value.Bool b))
    ∧ (js.is_null = false → js.is_undefined = false → js.as_f64 = none → js.as_bool = none →
        ∀ s, js.as_string = some s → Value.from_js js = some (Value.String s))
    ∧ (js.is_null = false → js.is_undefined = false → js.as_f64 = none → js.as_bool = none →
        js.as_string = none → Value.from_js js = none) := by
  obtain ⟨inl, iu, f, b, s⟩ := js
  refine ⟨?_, ?_, ?_, ?_, ?_⟩ <;> intros <;> simp_all [Value.from_js]

/-- Witness for from_js_precedence: the host value 0 that also answers the
boolean accessor marshals to Number 0, JS null marshals to Null, a plain
boolean to Bool, a plain string to String, and a host value no accessor
recognises is the unsupported-value fault. -/
theorem from_js_precedence_witness :
    Value.from_js ⟨false, false, some 0, some false, none⟩ = some (Value.Number 0)
    ∧ Value.from_js JsValue.NULL = some Value.Null
    ∧ Value.from_js (JsValue.from_bool true) = some (Value.Bool true)
    ∧ Value.from_js (JsValue.from_str "x") = some (Value.String "x")
    ∧ Value.from_js ⟨false, false, none, none, none⟩ = none :=
  ⟨(from_js_precedence _).2.1 rfl rfl 0 rfl,
   (from_js_precedence _).1 (Or.inl rfl),
   (from_js_precedence _).2.2.1 rfl rfl rfl true rfl,
   (from_js_precedence _).2.2.2.1 rfl rfl rfl rfl "x" rfl,
   (from_js_precedence _).2.2.2.2 rfl rfl rfl rfl rfl⟩

/-- Claim C2: interpret always returns finished = true with runtime_error
exactly the message of a failed engine run (none on success); step returns
finished = false with no error exactly when the engine step reports more
instructions remain, its finished flag is false exactly in that case (so
finished = true whenever the engine step completes or fails), and its
runtime_error is exactly the message of a failed engine step (none
otherwise). -/
theorem output_classification (E : Engine σ) (vm : WasmVm σ) :
    ((WasmVm.interpret E vm).fst.finished = true
      ∧ (WasmVm.interpret E vm).fst.runtime_error = runtimeErrorOf (E.run vm.interpreter).fst)
    ∧ (((WasmVm.step E vm).fst.finished = false ∧ (WasmVm.step E vm).fst.runtime_error = none)
        ↔ (E.step vm.interpreter).fst = .ok true)
    ∧ ((WasmVm.step E vm).fst.finished = false ↔ (E.step vm.interpreter).fst = .ok true)
    ∧ (WasmVm.step E vm).fst.runtime_error = stepErrorOf (E.step vm.interpreter).fst := by
  refine ⟨⟨?_, ?_⟩, ?_, ?_, ?_⟩
  · rw [wasm_interpret_eq]
    cases h : (E.run vm.interpreter).fst <;>
      simp [runOutput, Output.successful, Output.runtime_err]
  · rw [wasm_interpret_eq]
    cases h : (E.run vm.interpreter).fst <;>
      simp [runOutput, runtimeErrorOf, Output.successful, Output.runtime_err]
  · rw [wasm_step_eq]
    rcases h : (E.step vm.interpreter).fst with e | b
    · simp [stepOutput, Output.runtime_err]
    · cases b <;> simp [stepOutput, Output.unfinished, Output.successful]
  · rw [wasm_step_eq]
    rcases h : (E.step vm.interpreter).fst with e | b
    · simp [stepOutput, Output.runtime_err]
    · cases b <;> simp [stepOutput, Output.unfinished, Output.successful]
  · rw [wasm_step_eq]
    rcases h : (E.step vm.interpreter).fst with e | b
    · simp [stepOutput, stepErrorOf, Output.runtime_err]
    · cases b <;> simp [stepOutput, stepErrorOf, Output.unfinished, Output.successful]

/-- Driving by repeated step calls computes the runOutput translation of
the engine-level terminal step Result, fuel for fuel. -/
theorem stepDrive_eq_stepsToTermination (E : Engine σ) (n : Nat) : ∀ vm : WasmVm σ,
    stepDrive E n vm = (stepsToTermination E n vm.interpreter).map runOutput := by
  induction n with
  | zero => intro vm; rfl
  | succ n ih =>
    intro vm
    simp only [stepDrive, stepsToTermination]
    rw [wasm_step_eq]
    rcases hs : E.step vm.interpreter with ⟨q, t⟩
    rcases q with e | b
    · simp [stepOutput, runOutput, Output.runtime_err]
    · cases b
      · simp [stepOutput, runOutput, Output.successful]
      · simpa [stepOutput, Output.unfinished] using ih ⟨t⟩

/-- Claim C3: when repeated engine stepping reaches a terminal result r
within n steps and the engine run from the same state returns that same r,
one interpret call and driving step until finished = true produce the same
final Output (same finished flag and same runtime_error content). -/
theorem interpret_eq_stepDrive (E : Engine σ) (vm : WasmVm σ) (n : Nat)
    (r : Except RuntimeError Unit)
    (hsteps : stepsToTermination E n vm.interpreter = some r)
    (hagree : (E.run vm.interpreter).fst = r) :
    stepDrive E n vm = some (WasmVm.interpret E vm).fst := by
  rw [stepDrive_eq_stepsToTermination, hsteps, wasm_interpret_eq]
  simp [hagree]

/-- Witness for interpret_eq_stepDrive: the countdown engine starting at 2
remaining instructions terminates within 3 steps with the same successful
result, and the driven Output equals the interpret Output. -/
theorem interpret_eq_stepDrive_witness :
    stepDrive countdownEngine 3 ⟨2⟩ = some (WasmVm.interpret countdownEngine ⟨2⟩).fst
    ∧ stepDrive countdownEngine 3 ⟨2⟩ = some Output.successful :=
  ⟨interpret_eq_stepDrive countdownEngine ⟨2⟩ 3 (.ok ()) rfl rfl, rfl⟩

/-- Claim C4 counterexample: the adapter does not reject calls made after an
Output with finished = true.  With an engine holding a completed program,
the first step call returns finished = true, yet a second step call and an
interpret call on the same adapter are forwarded to the engine and return
the ordinary soft Output successful; no abort, panic or rejection path
exists in WasmVm::interpret or WasmVm::step. -/
theorem post_finished_rejected_counterexample :
    (WasmVm.step haltedEngine ⟨()⟩).fst.finished = true
    ∧ (WasmVm.step haltedEngine (WasmVm.step haltedEngine ⟨()⟩).snd).fst = Output.successful
    ∧ (WasmVm.interpret haltedEngine (WasmVm.step haltedEngine ⟨()⟩).snd).fst
        = Output.successful :=
  ⟨rfl, rfl, rfl⟩

/-- Claim C4 amended: once a step call has returned finished = true, a
further step or interpret call on the same adapter is not rejected: it is
forwarded to the engine unconditionally and returns the Output translation
of whatever the engine reports (the adapter keeps no finished state and has
no rejection path). -/
theorem post_finished_forwarded (E : Engine σ) (vm : WasmVm σ)
    (hfin : (WasmVm.step E vm).fst.finished = true) :
    (WasmVm.step E (WasmVm.step E vm).snd).fst
      = stepOutput (E.step (WasmVm.step E vm).snd.interpreter).fst
    ∧ (WasmVm.interpret E (WasmVm.step E vm).snd).fst
      = runOutput (E.run (WasmVm.step E vm).snd.interpreter).fst :=
  ⟨by rw [wasm_step_eq E (WasmVm.step E vm).snd],
   by rw [wasm_interpret_eq E (WasmVm.step E vm).snd]⟩

/-- Witness for post_finished_forwarded: with the halted engine the first
step call finishes, and the subsequent step and interpret calls return the
engine-translated Outputs. -/
theorem post_finished_forwarded_witness :
    (WasmVm.step haltedEngine (WasmVm.step haltedEngine ⟨()⟩).snd).fst
      = stepOutput (haltedEngine.step (WasmVm.step haltedEngine ⟨()⟩).snd.interpreter).fst
    ∧ (WasmVm.interpret haltedEngine (WasmVm.step haltedEngine ⟨()⟩).snd).fst
      = runOutput (haltedEngine.run (WasmVm.step haltedEngine ⟨()⟩).snd.interpreter).fst :=
  post_finished_forwarded haltedEngine ⟨()⟩ rfl

/-- Claim C1: under the engine contract that a constructor failure carries
at least one CompilerError, compile returns exactly one of the two shapes:
success = true with a present program and no diagnostics, or success =
false with no program and a non-empty diagnostic batch. -/
theorem compile_dichotomy (engineNew : String → List NativeFunction → Except (List CompilerError) σ)
    (source : String) (natives : List JsNativeFn) (now : Float)
    (hne : ∀ es, engineNew source (buildNativeTable natives now) = .error es → es ≠ []) :
    Xor'
      ((compile engineNew source natives now).success = true
        ∧ ((compile engineNew source natives now).vm).isSome = true
        ∧ (compile engineNew source natives now).compile_errors = none)
      ((compile engineNew source natives now).success = false
        ∧ (compile engineNew source natives now).vm = none
        ∧ ∃ es, (compile engineNew source natives now).compile_errors = some es ∧ es ≠ []) := by
  cases he : engineNew source (buildNativeTable natives now) with
  | ok interp =>
    left
    constructor
    · simp [compile, he, CompileResult.new_success]
    · simp [compile, he, CompileResult.new_success]
  | error es =>
    right
    have hes : es ≠ [] := hne es he
    constructor
    · refine ⟨?_, ?_, ?_⟩
      · simp [compile, he, CompileResult.new_failure]
      · simp [compile, he, CompileResult.new_failure]
      · refine ⟨es.map fun i => ⟨i.line, i.start, i.len, i.message⟩, ?_, ?_⟩
        · simp [compile, he, CompileResult.new_failure]
        · simpa using hes
    · simp [compile, he, CompileResult.new_failure]

/-- Witness for compile_dichotomy: an always-accepting engine yields the
success shape and an always-rejecting engine with one diagnostic yields the
failure shape with a non-empty batch. -/
theorem compile_dichotomy_witness :
    ((compile engineOkUnit "x" [] 0).success = true
      ∧ ((compile engineOkUnit "x" [] 0).vm).isSome = true
      ∧ (compile engineOkUnit "x" [] 0).compile_errors = none)
    ∧ ((compile engineFailUnit "x" [] 0).success = false
      ∧ (compile engineFailUnit "x" [] 0).vm = none
      ∧ ∃ es, (compile engineFailUnit "x" [] 0).compile_errors = some es ∧ es ≠ []) := by
  constructor
  · rcases compile_dichotomy engineOkUnit "x" [] 0
      (by intro es h; simp [engineOkUnit] at h) with h | h
    · exact h.1
    · exact absurd ⟨rfl, rfl, rfl⟩ h.2
  · rcases compile_dichotomy engineFailUnit "x" [] 0
      (by intro es h; simp [engineFailUnit] at h; subst h; simp) with h | h
    · exact absurd ⟨rfl, rfl, ⟨[⟨1, 0, 1, "bad input"⟩], rfl, by simp⟩⟩ h.2
    · exact h.1

/-- Claim C7: the first take_interpreter call returns the vm slot as it was
and the first take_compile_errors call returns the diagnostics slot as it
was, while after at least one take of a slot every further take of that
same slot returns none. -/
theorem take_once (r : CompileResult σ) :
    (r.take_interpreter).fst = r.vm
    ∧ (r.take_compile_errors).fst = r.compile_errors
    ∧ (∀ n : Nat, (CompileResult.take_interpreter (takeVmState^[n + 1] r)).fst = none)
    ∧ (∀ n : Nat, (CompileResult.take_compile_errors (takeErrsState^[n + 1] r)).fst = none) := by
  refine ⟨rfl, rfl, ?_, ?_⟩
  · intro n
    rw [Function.iterate_succ_apply']
    rfl
  · intro n
    rw [Function.iterate_succ_apply']
    rfl

/-- Claim C10: take_interpreter leaves the success flag and the diagnostics
slot unchanged, take_compile_errors leaves the success flag and the vm slot
unchanged, and the success getter returns the flag without changing the
result, so it can be read any number of times before or after either take. -/
theorem take_frame (r : CompileResult σ) :
    (r.take_interpreter).snd.success = r.success
    ∧ (r.take_interpreter).snd.compile_errors = r.compile_errors
    ∧ (r.take_compile_errors).snd.success = r.success
    ∧ (r.take_compile_errors).snd.vm = r.vm
    ∧ (r.success_getter).fst = r.success
    ∧ (r.success_getter).snd = r :=
  ⟨rfl, rfl, rfl, rfl, rfl, rfl⟩

/-- Claim C8: the native table compile hands to the engine is exactly the
host-registered natives, converted by into_native in registration order,
followed by exactly one time entry named "time" with arity 0 whose function
returns the wall clock reading divided by 1000 as a Number, whatever its
arguments and whatever the host-supplied list. -/
theorem native_table_shape (natives : List JsNativeFn) (now : Float) :
    (buildNativeTable natives now).take natives.length = natives.map JsNativeFn.into_native
    ∧ (buildNativeTable natives now).drop natives.length = [timeNative now]
    ∧ (timeNative now).name = "time"
    ∧ (timeNative now).arity = 0
    ∧ (∀ args : List Value, (timeNative now).function args
        = some (Value.Number (now / 1000.0))) := by
  refine ⟨?_, ?_, rfl, rfl, fun _ => rfl⟩
  · rw [buildNativeTable]
    exact List.take_left' (by simp)
  · rw [buildNativeTable]
    exact List.drop_left' (by simp)

/-- Claim C9: when the arguments marshal, a throwing host implementation
makes the bridged native return none (the modelled fatal bridge fault), and
an unmarshallable host return value likewise makes it return none; in
neither case is any Value handed to the engine, and no RuntimeDiagnostic
shape exists in the bridged function's result type. -/
theorem bridge_fault (f : JsNativeFn) (vals : List Value) (js_args : List JsValue)
    (hargs : vals.mapM Value.to_js = some js_args) :
    (∀ e, f.function js_args = .error e → (f.into_native).function vals = none)
    ∧ (∀ r, f.function js_args = .ok r → Value.from_js r = none →
        (f.into_native).function vals = none) := by
  have hgoal : (f.into_native).function vals
      = (match vals.mapM Value.to_js with
         | none => none
         | some a =>
           match f.function a with
           | .error _ => none
           | .ok result => Value.from_js result) := rfl
  constructor
  · intro e he
    rw [hgoal, hargs]
    simp [he]
  · intro r hr hm
    rw [hgoal, hargs]
    simp [hr, hm]

/-- Witness for bridge_fault: a host native that always throws and a host
native returning an unrecognisable JS object both yield the fault, not a
Value. -/
theorem bridge_fault_witness :
    (JsNativeFn.into_native throwingFn).function [] = none
    ∧ (JsNativeFn.into_native badReturnFn).function [] = none :=
  ⟨(bridge_fault throwingFn [] [] rfl).1 JsValue.NULL rfl,
   (bridge_fault badReturnFn [] [] rfl).2 ⟨false, false, none, none, none⟩ rfl rfl⟩
